import Mathlib

/-!
Verification of the repacking-priority-list pipeline
(`create_repacking_priority_list_from_excel` in `kowake.py`).

The pipeline reads a sheet whose second physical row is the header,
checks six required columns, filters rows by product name and today's
produced quantity, coerces the four numeric columns (non-parseable
values become 0), derives a fulfillment rate and a delivery/shortage
rate, sorts by a four-key rule, projects to seven output columns and
renders a styled worksheet.  The embedding below translates each stage
of that function; machine-level spreadsheet bytes are modelled by the
`Sheet` structure holding exactly the cells, formats, heights and
borders that the rendering code writes.
-/

namespace Kowake

/-- A numeric-column cell as read from the sheet: either content that
`pd.to_numeric` parses to the rational `q`, or content that fails to parse
(including an empty cell), which `errors="coerce"` followed by `fillna(0)`
turns into 0 (line 110 of `kowake.py`). -/
inductive Cell where
  | num (q : ℚ)
  | bad
deriving DecidableEq

/-- The numeric value of a cell after `pd.to_numeric(..., errors="coerce").fillna(0)`. -/
def Cell.coerce : Cell → ℚ
  | .num q => q
  | .bad => 0

/-- One input row, restricted to the six columns the pipeline reads.
`productName` is the value the mask `astype(str)` sees (for rows whose
name is not a string the stringified form can never contain the marker
character, so such rows never survive the first filter). -/
structure Row where
  productCode : String
  productName : String
  prevDayStock : Cell
  todayReceived : Cell
  deliveryQty : Cell
  actionNeeded : Cell
deriving DecidableEq

/-- The parsed sheet: header cells of the second physical row (before
whitespace trimming) and the data rows. -/
structure Table where
  headers : List String
  rows : List Row
deriving DecidableEq

/-- Expected header name of the product-code column (line 65). -/
def productCodeCol : String := "商品コード"

/-- Expected header name of the product-name column (line 66). -/
def productNameCol : String := "商品名"

/-- Expected header name of the previous-day stock column (line 67). -/
def prevDayStockCol : String := "昨日残"

/-- Expected header name of the today-received column (line 68). -/
def todayReceivedCol : String := "今日入荷（作成）"

/-- Expected header name of the delivery-quantity column (line 69). -/
def deliveryQtyCol : String := "納品数"

/-- Expected header name of the shortage / action-needed column (line 70). -/
def actionNeededCol : String := "集荷便から降ろす数/小分けしないと足りない数"

/-- The `required_input_cols_map` of lines 73-80: display name paired
with the actual header name. -/
def requiredInputColsMap : List (String × String) :=
  [("商品コード(A列)", productCodeCol),
   ("商品名(B列)", productNameCol),
   ("昨日残(C列)", prevDayStockCol),
   ("今日入荷作成(D列)", todayReceivedCol),
   ("納品数(E列)", deliveryQtyCol),
   ("小分け不足数(K列)", actionNeededCol)]

/-- Whitespace strip on both ends, the model of `str.strip()` used on the
header cells; written on the character list so that it evaluates inside
the kernel. -/
def strStrip (s : String) : String :=
  ⟨(((s.data.dropWhile (fun c => c.isWhitespace)).reverse.dropWhile
      (fun c => c.isWhitespace)).reverse)⟩

/-- Substring test for a single character, the model of `"◇" in name`. -/
def strContainsChar (s : String) (c : Char) : Bool := s.data.contains c

/-- Suffix test, the model of `name.endswith("東一")`. -/
def strEndsWith (s suffix : String) : Bool := suffix.data.isSuffixOf s.data

/-- Header names after `df.columns.str.strip()` (line 61). -/
def trimmedHeaders (t : Table) : List String := t.headers.map strStrip

/-- The diagnostic entry appended for one missing column (line 85);
the quotation marks of the original message are left out. -/
def missingEntry (p : String × String) : String :=
  p.1 ++ " (想定ヘッダー名: " ++ p.2 ++ ")"

/-- The list `missing_excel_cols` built by the loop of lines 82-85. -/
def missingExcelCols (cols : List String) : List String :=
  (requiredInputColsMap.filter (fun p => !(cols.contains p.2))).map missingEntry

/-- Sequential join of strings with a separator, the model of
`", ".join(...)` used in the failure message. -/
def joinSep (sep : String) : List String → String
  | [] => ""
  | [x] => x
  | x :: y :: xs => x ++ sep ++ joinSep sep (y :: xs)

/-- Rendering of the `available_cols` list inside the failure message
(line 90); the quotation marks of the Python list display are left out. -/
def headerListRepr (cols : List String) : String :=
  "[" ++ joinSep ", " cols ++ "]"

/-- The schema-failure message of lines 88-90. -/
def schemaErrMsg (missing : List String) (cols : List String) : String :=
  "Excelファイルに必要な列が見つかりません: " ++ joinSep ", " missing ++ "。\n" ++
    "Excelファイルの最初のシートの2行目のヘッダー名を確認してください。\n" ++
    "読み込まれたExcelヘッダー: " ++ headerListRepr cols

/-- Informational message when no product name contains the marker (line 95). -/
def emptyMsg1 : String := "対象商品（商品名に「◇」を含む）が見つかりませんでした。"

/-- Informational message when every marked product name ends in 東一 (line 99). -/
def emptyMsg2 : String :=
  "対象商品（商品名に「◇」を含み、かつ末尾が「東一」でない）が見つかりませんでした。"

/-- Informational message when every remaining row has zero today-received (line 114). -/
def emptyMsg3 : String :=
  "対象商品（商品名に「◇」を含み、末尾が「東一」でなく、かつ「今日入荷（作成）」が0でない）は見つかりませんでした。"

/-- Filter 1 (line 93): the product name contains the character ◇. -/
def passesDiamond (r : Row) : Bool := strContainsChar r.productName '◇'

/-- Filter 2 (line 97): the product name does not end with 東一. -/
def passesNotTouichi (r : Row) : Bool := !(strEndsWith r.productName "東一")

/-- Filter 3 (line 112): the coerced today-received quantity is not 0. -/
def passesToday (r : Row) : Bool := decide (r.todayReceived.coerce ≠ 0)

/-- Rows surviving filter 1, the first `df_temp_filtered` (line 93). -/
def filtered1 (t : Table) : List Row := t.rows.filter passesDiamond

/-- Rows surviving filters 1 and 2 (line 97). -/
def filtered2 (t : Table) : List Row := (filtered1 t).filter passesNotTouichi

/-- Rows surviving all three filters, `df_filtered` (line 112). -/
def filtered3 (t : Table) : List Row := (filtered2 t).filter passesToday

/-- Conjunction of the three row filters. -/
def passesAll (r : Row) : Bool :=
  passesDiamond r && passesNotTouichi r && passesToday r

/-- The `calculated_充足率` column (lines 117-121): previous-day stock over
delivery quantity when the delivery quantity is nonzero, otherwise 0. -/
def fulfillOf (r : Row) : ℚ :=
  if r.deliveryQty.coerce ≠ 0 then r.prevDayStock.coerce / r.deliveryQty.coerce else 0

/-- The `calculated_E_K_ratio` column (lines 123-127): delivery quantity over
shortage quantity when the shortage quantity is positive, otherwise -1. -/
def ekRateOf (r : Row) : ℚ :=
  if r.actionNeeded.coerce > 0 then r.deliveryQty.coerce / r.actionNeeded.coerce else -1

/-- A filtered row together with its two derived columns. -/
structure CompRow where
  row : Row
  fulfillRate : ℚ
  ekRate : ℚ
deriving DecidableEq

/-- Attach the derived columns to one row. -/
def compRow (r : Row) : CompRow := ⟨r, fulfillOf r, ekRateOf r⟩

/-- `df_filtered` with its two computed columns, in input order. -/
def computedRows (t : Table) : List CompRow := (filtered3 t).map compRow

/-- The four sort keys as a lexicographic tuple.  The last component is
negated so that plain lexicographic order realises the
`ascending=[True, True, True, False]` directive of line 132. -/
def sortKey (d : CompRow) : ℚ ×ₗ ℚ ×ₗ ℚ ×ₗ ℚ :=
  toLex (d.fulfillRate,
    toLex (d.row.actionNeeded.coerce,
      toLex (d.row.prevDayStock.coerce, -d.ekRate)))

/-- The comparator realised by `sort_values` at lines 130-133. -/
def rowLe (a b : CompRow) : Prop := sortKey a ≤ sortKey b

instance : DecidableRel rowLe :=
  fun a b => inferInstanceAs (Decidable (sortKey a ≤ sortKey b))

instance : IsTotal CompRow rowLe := ⟨fun a b => le_total (sortKey a) (sortKey b)⟩

instance : IsTrans CompRow rowLe := ⟨fun _ _ _ h h2 => le_trans h h2⟩

/-- `df_sorted` (lines 130-133): a stable sort of the computed rows by the
four-key comparator (pandas multi-key `sort_values` is a stable
lexicographic sort). -/
def sortedRows (t : Table) : List CompRow := List.insertionSort rowLe (computedRows t)

/-- One row of `output_df` (lines 136-143). -/
structure OutputRow where
  productCode : String
  productName : String
  prevDayStock : ℚ
  todayMade : ℚ
  deliveryQty : ℚ
  shortage : ℚ
  fulfillRate : ℚ
deriving DecidableEq

/-- Projection of a computed row onto the seven output columns. -/
def toOutput (d : CompRow) : OutputRow :=
  ⟨d.row.productCode, d.row.productName, d.row.prevDayStock.coerce,
   d.row.todayReceived.coerce, d.row.deliveryQty.coerce,
   d.row.actionNeeded.coerce, d.fulfillRate⟩

/-- The rows of `output_df`, sorted and projected. -/
def outputRows (t : Table) : List OutputRow := (sortedRows t).map toOutput

/-- The seven output column names, in the order of lines 137-143. -/
def outputHeader : List String :=
  ["商品コード", "商品名", "昨日残", "本日作成", "納品数", "不足数", "充足率"]

/-- First footer text (line 240). -/
def footer1Text : String :=
  "※充足率＝「納品数」に対する「昨日残数」の割合（昨日残数÷納品数）"

/-- Second footer text (line 248). -/
def footer2Text : String :=
  "※「東一」用の商品名の記載はありませんが、該当商品の不足数には反映されています。"

/-- The rendered worksheet, modelling exactly what lines 150-251 write:
the title in cell B1, the header on physical row 2, data from row 3,
the percent number format on the fulfillment-rate column of every data
row, borders on header and data rows only, explicit row heights, fixed
column widths, and the two footer cells in column A. -/
structure Sheet where
  titleCell : String
  headerRow : List String
  dataStartRow : ℕ
  dataRows : List OutputRow
  percentRows : List ℕ
  percentFormat : String
  borderedRows : List ℕ
  rowHeights : List (ℕ × ℚ)
  colWidths : List ℚ
  footer1 : ℕ × String
  footer2 : ℕ × String
deriving DecidableEq

/-- Rendering of the sorted output rows (lines 150-251).  `to_excel` with
`startrow=1` puts the header on physical row 2 and data on rows
3 .. `n+2`, so `worksheet.max_row` is `n+2`; the percent format runs over
rows 3 .. max_row, borders over rows 2 .. max_row, heights over rows
1 .. max_row plus the two footer rows at max_row+2 and max_row+3. -/
def renderSheet (dateTitle : String) (out : List OutputRow) : Sheet :=
  let maxRow := out.length + 2
  { titleCell := dateTitle ++ " 小分け作成メモ"
    headerRow := outputHeader
    dataStartRow := 3
    dataRows := out
    percentRows := (List.range (maxRow - 2)).map (fun i => i + 3)
    percentFormat := "0.0%"
    borderedRows := (List.range (maxRow - 1)).map (fun i => i + 2)
    rowHeights :=
      ((List.range maxRow).map (fun i => (i + 1, (18 : ℚ))))
        ++ [(maxRow + 2, (18 : ℚ)), (maxRow + 3, (18 : ℚ))]
    colWidths := [9, 37, 7.5, 9, 7.5, 7.5, 7.5]
    footer1 := (maxRow + 2, footer1Text)
    footer2 := (maxRow + 3, footer2Text) }

/-- The four-tuple returned by the pipeline. -/
structure Result where
  ok : Bool
  message : String
  filename : Option String
  artifact : Option Sheet
deriving DecidableEq

/-- Output file name (line 148). -/
def outputFilename (mmdd : String) : String := mmdd ++ "_小分け作業の判断指標.xlsx"

/-- Success message (line 255). -/
def successMsg (filename : String) : String :=
  "処理が完了しました。「" ++ filename ++ "」を確認してください。"

/-- The whole pipeline after the sheet has been parsed: schema check,
three filters with their early informational returns, numeric coercion,
derived columns, sort, projection and rendering (lines 61-255).
`mmdd` and `dateTitle` stand for the two `strftime` renderings of the
current date. -/
def pipeline (mmdd dateTitle : String) (t : Table) : Result :=
  if missingExcelCols (trimmedHeaders t) ≠ [] then
    ⟨false, schemaErrMsg (missingExcelCols (trimmedHeaders t)) (trimmedHeaders t), none, none⟩
  else if filtered1 t = [] then ⟨true, emptyMsg1, none, none⟩
  else if filtered2 t = [] then ⟨true, emptyMsg2, none, none⟩
  else if filtered3 t = [] then ⟨true, emptyMsg3, none, none⟩
  else
    ⟨true, successMsg (outputFilename mmdd), some (outputFilename mmdd),
     some (renderSheet dateTitle (outputRows t))⟩

/-! ### Helper lemmas about the pipeline stages -/

theorem filtered3_eq_filter_passesAll (t : Table) :
    filtered3 t = t.rows.filter passesAll := by
  unfold filtered3 filtered2 filtered1
  rw [List.filter_filter, List.filter_filter]
  apply List.filter_congr
  intro r _
  cases hd : passesDiamond r <;> cases hn : passesNotTouichi r <;>
    cases ht : passesToday r <;> simp [passesAll, hd, hn, ht]

theorem computedRows_eq (t : Table) :
    computedRows t = (t.rows.filter passesAll).map compRow := by
  rw [computedRows, filtered3_eq_filter_passesAll]

theorem sortedRows_perm (t : Table) : (sortedRows t).Perm (computedRows t) :=
  List.perm_insertionSort _ _

theorem sorted_sortedRows (t : Table) : List.Sorted rowLe (sortedRows t) :=
  List.sorted_insertionSort _ _

theorem filtered1_ne_of_filtered2_ne {t : Table} (h : filtered2 t ≠ []) :
    filtered1 t ≠ [] := by
  intro h1
  exact h (by rw [filtered2, h1]; rfl)

theorem filtered2_ne_of_filtered3_ne {t : Table} (h : filtered3 t ≠ []) :
    filtered2 t ≠ [] := by
  intro h2
  exact h (by rw [filtered3, h2]; rfl)

/-! ### Case lemmas for the pipeline control flow -/

theorem pipeline_schema_fail (mmdd dt : String) (t : Table)
    (h : missingExcelCols (trimmedHeaders t) ≠ []) :
    pipeline mmdd dt t =
      ⟨false, schemaErrMsg (missingExcelCols (trimmedHeaders t)) (trimmedHeaders t),
       none, none⟩ := by
  rw [pipeline, if_pos h]

theorem pipeline_empty1 (mmdd dt : String) (t : Table)
    (h0 : missingExcelCols (trimmedHeaders t) = []) (h1 : filtered1 t = []) :
    pipeline mmdd dt t = ⟨true, emptyMsg1, none, none⟩ := by
  rw [pipeline, if_neg (fun hne => hne h0), if_pos h1]

theorem pipeline_empty2 (mmdd dt : String) (t : Table)
    (h0 : missingExcelCols (trimmedHeaders t) = []) (h1 : filtered1 t ≠ [])
    (h2 : filtered2 t = []) :
    pipeline mmdd dt t = ⟨true, emptyMsg2, none, none⟩ := by
  rw [pipeline, if_neg (fun hne => hne h0), if_neg h1, if_pos h2]

theorem pipeline_empty3 (mmdd dt : String) (t : Table)
    (h0 : missingExcelCols (trimmedHeaders t) = []) (h2 : filtered2 t ≠ [])
    (h3 : filtered3 t = []) :
    pipeline mmdd dt t = ⟨true, emptyMsg3, none, none⟩ := by
  rw [pipeline, if_neg (fun hne => hne h0), if_neg (filtered1_ne_of_filtered2_ne h2),
    if_neg h2, if_pos h3]

theorem pipeline_success (mmdd dt : String) (t : Table)
    (h0 : missingExcelCols (trimmedHeaders t) = []) (h3 : filtered3 t ≠ []) :
    pipeline mmdd dt t =
      ⟨true, successMsg (outputFilename mmdd), some (outputFilename mmdd),
       some (renderSheet dt (outputRows t))⟩ := by
  have h2 := filtered2_ne_of_filtered3_ne h3
  rw [pipeline, if_neg (fun hne => hne h0), if_neg (filtered1_ne_of_filtered2_ne h2),
    if_neg h2, if_neg h3]

theorem artifact_some_inv (mmdd dt : String) (t : Table) (s : Sheet)
    (h : (pipeline mmdd dt t).artifact = some s) :
    missingExcelCols (trimmedHeaders t) = [] ∧ filtered1 t ≠ [] ∧ filtered2 t ≠ [] ∧
      filtered3 t ≠ [] ∧
      pipeline mmdd dt t =
        ⟨true, successMsg (outputFilename mmdd), some (outputFilename mmdd),
         some (renderSheet dt (outputRows t))⟩ ∧
      s = renderSheet dt (outputRows t) := by
  by_cases h0 : missingExcelCols (trimmedHeaders t) = []
  · by_cases h1 : filtered1 t = []
    · rw [pipeline_empty1 mmdd dt t h0 h1] at h
      exact absurd h (by simp)
    · by_cases h2 : filtered2 t = []
      · rw [pipeline_empty2 mmdd dt t h0 h1 h2] at h
        exact absurd h (by simp)
      · by_cases h3 : filtered3 t = []
        · rw [pipeline_empty3 mmdd dt t h0 h2 h3] at h
          exact absurd h (by simp)
        · have hp := pipeline_success mmdd dt t h0 h3
          rw [hp] at h
          simp only [Option.some.injEq] at h
          exact ⟨h0, h1, h2, h3, hp, h.symm⟩
  · rw [pipeline_schema_fail mmdd dt t h0] at h
    exact absurd h (by simp)

/-! ### Stability of the sort: rows whose four keys agree keep their order -/

theorem filter_key_orderedInsert {α K : Type} [DecidableEq K]
    (r : α → α → Prop) [DecidableRel r] (kf : α → K)
    (hk : ∀ a b, kf a = kf b → r a b) (a : α) (k : K) :
    ∀ s : List α,
      (s.orderedInsert r a).filter (fun x => decide (kf x = k)) =
        if kf a = k then a :: s.filter (fun x => decide (kf x = k))
        else s.filter (fun x => decide (kf x = k)) := by
  intro s
  induction s with
  | nil =>
    by_cases h : kf a = k <;> simp [List.orderedInsert, h]
  | cons b s ih =>
    rw [List.orderedInsert]
    by_cases hr : r a b
    · rw [if_pos hr]
      by_cases h : kf a = k <;> simp [List.filter_cons, h]
    · rw [if_neg hr]
      by_cases hak : kf a = k
      · have hbk : ¬ kf b = k := fun hbk => hr (hk a b (hak.trans hbk.symm))
        rw [if_pos hak] at ih ⊢
        simp [List.filter_cons, hbk, ih]
      · rw [if_neg hak] at ih ⊢
        by_cases hbk : kf b = k <;> simp [List.filter_cons, hbk, ih]

theorem filter_key_insertionSort {α K : Type} [DecidableEq K]
    (r : α → α → Prop) [DecidableRel r] (kf : α → K)
    (hk : ∀ a b, kf a = kf b → r a b) (k : K) (l : List α) :
    (List.insertionSort r l).filter (fun x => decide (kf x = k)) =
      l.filter (fun x => decide (kf x = k)) := by
  induction l with
  | nil => rfl
  | cons a l ih =>
    rw [List.insertionSort, filter_key_orderedInsert r kf hk a k _, ih, List.filter_cons]
    by_cases h : kf a = k <;> simp [h]

/-! ### The four sort keys -/

/-- The four sort keys of a computed row as a plain tuple, in the order of
line 131: fulfillment rate, shortage quantity, previous-day stock,
delivery-to-shortage rate. -/
def keyTuple (d : CompRow) : ℚ × ℚ × ℚ × ℚ :=
  (d.fulfillRate, d.row.actionNeeded.coerce, d.row.prevDayStock.coerce, d.ekRate)

/-- The four-key comparison spelled out: fulfillment rate ascending, then
shortage quantity ascending, then previous-day stock ascending, then
delivery-to-shortage rate descending. -/
def fourKeyLe (a b : CompRow) : Prop :=
  a.fulfillRate < b.fulfillRate ∨
    (a.fulfillRate = b.fulfillRate ∧
      (a.row.actionNeeded.coerce < b.row.actionNeeded.coerce ∨
        (a.row.actionNeeded.coerce = b.row.actionNeeded.coerce ∧
          (a.row.prevDayStock.coerce < b.row.prevDayStock.coerce ∨
            (a.row.prevDayStock.coerce = b.row.prevDayStock.coerce ∧
              b.ekRate ≤ a.ekRate)))))

theorem rowLe_iff_fourKeyLe (a b : CompRow) : rowLe a b ↔ fourKeyLe a b := by
  unfold rowLe sortKey fourKeyLe
  rw [Prod.Lex.le_iff, Prod.Lex.le_iff, Prod.Lex.le_iff]
  simp [neg_le_neg_iff]

theorem rowLe_of_keyTuple_eq {a b : CompRow} (h : keyTuple a = keyTuple b) :
    rowLe a b := by
  unfold keyTuple at h
  rw [Prod.mk.injEq, Prod.mk.injEq, Prod.mk.injEq] at h
  unfold rowLe sortKey
  rw [h.1, h.2.1, h.2.2.1, h.2.2.2]

/-! ### Splitting the joined failure message around one entry -/

theorem joinSep_mem_split (sep m : String) :
    ∀ l : List String, m ∈ l → ∃ x y, joinSep sep l = x ++ (m ++ y) := by
  intro l
  induction l with
  | nil => intro h; exact absurd h (List.not_mem_nil m)
  | cons a l ih =>
    intro h
    cases l with
    | nil =>
      rcases List.mem_singleton.mp h with rfl
      exact ⟨"", "", by simp [joinSep]⟩
    | cons b l2 =>
      rcases List.mem_cons.mp h with rfl | h2
      · refine ⟨"", sep ++ joinSep sep (b :: l2), ?_⟩
        rw [joinSep, String.empty_append, String.append_assoc]
      · rcases ih h2 with ⟨x, y, hx⟩
        refine ⟨a ++ sep ++ x, y, ?_⟩
        rw [joinSep, hx, String.append_assoc, String.append_assoc]
        rw [String.append_assoc]

theorem missingEntry_mem_missingExcelCols {p : String × String} {cols : List String}
    (hp : p ∈ requiredInputColsMap) (habs : p.2 ∉ cols) :
    missingEntry p ∈ missingExcelCols cols := by
  unfold missingExcelCols
  refine List.mem_map.mpr ⟨p, List.mem_filter.mpr ⟨hp, ?_⟩, rfl⟩
  simp [habs]

/-! ### Concrete tables used to instantiate the theorems -/

/-- The six required headers, as on a well-formed sheet. -/
def goodHeaders : List String :=
  [productCodeCol, productNameCol, prevDayStockCol, todayReceivedCol,
   deliveryQtyCol, actionNeededCol]

/-- A marked row that does not end in 東一 and has nonzero today quantity. -/
def p1Row : Row := ⟨"P1", "◇東京一", .num 4, .num 2, .num 8, .num 2⟩

/-- A marked row whose name ends in 東一. -/
def p2Row : Row := ⟨"P2", "◇東一", .num 1, .num 5, .num 3, .num 1⟩

/-- A marked row with non-parseable stock and shortage cells and zero delivery. -/
def p3Row : Row := ⟨"P3", "◇あ", .bad, .num 1, .num 0, .bad⟩

/-- A well-formed table exercising all three filters. -/
def sampleTable : Table := { headers := goodHeaders, rows := [p1Row, p2Row, p3Row] }

/-- A table whose rows have no ◇ in any product name. -/
def noDiamondTable : Table :=
  { headers := goodHeaders, rows := [⟨"P1", "りんご", .num 1, .num 1, .num 1, .num 1⟩] }

/-- A table whose only marked row ends in 東一. -/
def allTouichiTable : Table := { headers := goodHeaders, rows := [p2Row] }

/-- A table whose only surviving row has a non-parseable today quantity. -/
def zeroTodayTable : Table :=
  { headers := goodHeaders, rows := [⟨"P1", "◇りんご", .num 1, .bad, .num 1, .num 1⟩] }

/-- A table missing five of the six required columns; the one present
header carries surrounding blanks that the trim removes. -/
def missingColTable : Table := { headers := [" 商品名 ", "昨日残"], rows := [] }

/-! ### Claims -/

/-- C1: whenever the pipeline returns an artifact, its data rows are exactly
the input rows that contain ◇, do not end in 東一, and have nonzero coerced
today quantity (as a multiset: the sort only reorders them), with equal
count; in particular a name exactly ◇東一 fails the filters and ◇東京一
passes them whenever its coerced today quantity is nonzero. -/
theorem C1_rows_are_filtered_rows (mmdd dt : String) (t : Table) (s : Sheet)
    (h : (pipeline mmdd dt t).artifact = some s) :
    s.dataRows.length = (t.rows.filter passesAll).length ∧
    s.dataRows.Perm ((t.rows.filter passesAll).map (fun r => toOutput (compRow r))) ∧
    (∀ r : Row, r.productName = "◇東一" → passesAll r = false) ∧
    (∀ r : Row, r.productName = "◇東京一" → r.todayReceived.coerce ≠ 0 →
      passesAll r = true) := by
  rcases artifact_some_inv mmdd dt t s h with ⟨_, _, _, _, _, hs⟩
  subst hs
  have hperm : (outputRows t).Perm
      ((t.rows.filter passesAll).map (fun r => toOutput (compRow r))) := by
    unfold outputRows
    have hp := (sortedRows_perm t).map toOutput
    rw [computedRows_eq] at hp
    simpa [List.map_map, Function.comp] using hp
  refine ⟨?_, hperm, ?_, ?_⟩
  · show (outputRows t).length = _
    rw [hperm.length_eq, List.length_map]
  · intro r hname
    have h2f : passesNotTouichi r = false := by
      unfold passesNotTouichi strEndsWith
      rw [hname]
      decide
    simp [passesAll, h2f]
  · intro r hname hqty
    have hd : passesDiamond r = true := by
      unfold passesDiamond strContainsChar
      rw [hname]
      decide
    have hn : passesNotTouichi r = true := by
      unfold passesNotTouichi strEndsWith
      rw [hname]
      decide
    have ht : passesToday r = true := by
      unfold passesToday
      simp only [decide_eq_true_eq]
      exact hqty
    simp [passesAll, hd, hn, ht]

unseal Rat.mul Rat.inv Rat.add Rat.sub Rat.ofScientific in
theorem C1_rows_are_filtered_rows_witness :
    ∃ s, (pipeline "1012" "10月12日" sampleTable).artifact = some s ∧
      s.dataRows.length = (sampleTable.rows.filter passesAll).length := by
  have hart : (pipeline "1012" "10月12日" sampleTable).artifact =
      some (renderSheet "10月12日" (outputRows sampleTable)) := by decide
  exact ⟨_, hart, (C1_rows_are_filtered_rows "1012" "10月12日" sampleTable _ hart).1⟩

/-- C2: the sorted stage orders the rows by fulfillment rate ascending, then
shortage quantity ascending, then previous-day stock ascending, then
delivery-to-shortage rate descending; rows agreeing on all four keys keep
their original relative order (the filter by any fixed key tuple is
unchanged); and the artifact rows are exactly that sorted sequence. -/
theorem C2_sorted_and_stable (mmdd dt : String) (t : Table) :
    List.Sorted fourKeyLe (sortedRows t) ∧
    (∀ k : ℚ × ℚ × ℚ × ℚ,
      (sortedRows t).filter (fun d => decide (keyTuple d = k)) =
        (computedRows t).filter (fun d => decide (keyTuple d = k))) ∧
    (∀ s : Sheet, (pipeline mmdd dt t).artifact = some s →
      s.dataRows = (sortedRows t).map toOutput) := by
  refine ⟨?_, ?_, ?_⟩
  · exact (sorted_sortedRows t).imp (fun h => (rowLe_iff_fourKeyLe _ _).mp h)
  · intro k
    exact filter_key_insertionSort rowLe keyTuple
      (fun a b hab => rowLe_of_keyTuple_eq hab) k (computedRows t)
  · intro s h
    rcases artifact_some_inv mmdd dt t s h with ⟨_, _, _, _, _, hs⟩
    rw [hs]
    rfl

unseal Rat.mul Rat.inv Rat.add Rat.sub Rat.ofScientific in
theorem C2_sorted_and_stable_witness :
    ∃ s, (pipeline "1012" "10月12日" sampleTable).artifact = some s ∧
      s.dataRows = (sortedRows sampleTable).map toOutput := by
  have hart : (pipeline "1012" "10月12日" sampleTable).artifact =
      some (renderSheet "10月12日" (outputRows sampleTable)) := by decide
  exact ⟨_, hart, (C2_sorted_and_stable "1012" "10月12日" sampleTable).2.2 _ hart⟩

/-- C3: when any required column is absent after header trimming, the
pipeline fails (ok false, no filename, no artifact), the message embeds the
diagnostic entry of every missing logical column and the list of the
actually-present headers, and the result does not depend on the data rows. -/
theorem C3_schema_failure (mmdd dt : String) (t : Table)
    (h : missingExcelCols (trimmedHeaders t) ≠ []) :
    (pipeline mmdd dt t).ok = false ∧
    (pipeline mmdd dt t).filename = none ∧
    (pipeline mmdd dt t).artifact = none ∧
    (∀ p ∈ requiredInputColsMap, p.2 ∉ trimmedHeaders t →
      ∃ x y, (pipeline mmdd dt t).message = x ++ (missingEntry p ++ y)) ∧
    (∃ x, (pipeline mmdd dt t).message = x ++ headerListRepr (trimmedHeaders t)) ∧
    (∀ rows2 : List Row, pipeline mmdd dt { t with rows := rows2 } = pipeline mmdd dt t) := by
  refine ⟨?_, ?_, ?_, ?_, ?_, ?_⟩
  · rw [pipeline_schema_fail mmdd dt t h]
  · rw [pipeline_schema_fail mmdd dt t h]
  · rw [pipeline_schema_fail mmdd dt t h]
  · intro p hp habs
    have hmem := missingEntry_mem_missingExcelCols hp habs
    rcases joinSep_mem_split ", " (missingEntry p) _ hmem with ⟨x0, y0, hj⟩
    rw [pipeline_schema_fail mmdd dt t h]
    refine ⟨"Excelファイルに必要な列が見つかりません: " ++ x0,
      y0 ++ ("。\nExcelファイルの最初のシートの2行目のヘッダー名を確認してください。\n読み込まれたExcelヘッダー: " ++
        headerListRepr (trimmedHeaders t)), ?_⟩
    show schemaErrMsg (missingExcelCols (trimmedHeaders t)) (trimmedHeaders t) = _
    unfold schemaErrMsg
    rw [hj]
    simp [String.append_assoc]
  · rw [pipeline_schema_fail mmdd dt t h]
    exact ⟨_, rfl⟩
  · intro rows2
    rw [pipeline_schema_fail mmdd dt t h]
    exact pipeline_schema_fail mmdd dt { t with rows := rows2 } h

theorem C3_schema_failure_witness :
    (pipeline "1012" "d" missingColTable).ok = false ∧
    (pipeline "1012" "d" missingColTable).artifact = none ∧
    (∃ x y, (pipeline "1012" "d" missingColTable).message =
      x ++ (missingEntry ("商品コード(A列)", productCodeCol) ++ y)) := by
  have h : missingExcelCols (trimmedHeaders missingColTable) ≠ [] := by decide
  have hc := C3_schema_failure "1012" "d" missingColTable h
  exact ⟨hc.1, hc.2.2.1,
    hc.2.2.2.1 ("商品コード(A列)", productCodeCol) (by decide) (by decide)⟩

/-- C4: with the schema intact, each of the three empty-filter stages
returns success with no filename and no artifact, carrying its own
informational message, and the three messages are pairwise distinct. -/
theorem C4_empty_results (mmdd dt : String) (t : Table)
    (h0 : missingExcelCols (trimmedHeaders t) = []) :
    (filtered1 t = [] → pipeline mmdd dt t = ⟨true, emptyMsg1, none, none⟩) ∧
    (filtered1 t ≠ [] → filtered2 t = [] →
      pipeline mmdd dt t = ⟨true, emptyMsg2, none, none⟩) ∧
    (filtered2 t ≠ [] → filtered3 t = [] →
      pipeline mmdd dt t = ⟨true, emptyMsg3, none, none⟩) ∧
    (emptyMsg1 ≠ emptyMsg2 ∧ emptyMsg1 ≠ emptyMsg3 ∧ emptyMsg2 ≠ emptyMsg3) :=
  ⟨pipeline_empty1 mmdd dt t h0, pipeline_empty2 mmdd dt t h0,
   pipeline_empty3 mmdd dt t h0, by decide, by decide, by decide⟩

theorem C4_empty_results_witness :
    pipeline "a" "b" noDiamondTable = ⟨true, emptyMsg1, none, none⟩ ∧
    pipeline "a" "b" allTouichiTable = ⟨true, emptyMsg2, none, none⟩ ∧
    pipeline "a" "b" zeroTodayTable = ⟨true, emptyMsg3, none, none⟩ :=
  ⟨(C4_empty_results "a" "b" noDiamondTable (by decide)).1 (by decide),
   (C4_empty_results "a" "b" allTouichiTable (by decide)).2.1 (by decide) (by decide),
   (C4_empty_results "a" "b" zeroTodayTable (by decide)).2.2.1 (by decide) (by decide)⟩

/-- C5: the pipeline is a total function into the four-field result; an
artifact is present only together with ok, a filename and a non-empty
filtered row set, and a failing result carries neither filename nor
artifact. -/
theorem C5_result_contract (mmdd dt : String) (t : Table) :
    ((pipeline mmdd dt t).artifact.isSome →
      (pipeline mmdd dt t).ok = true ∧ (pipeline mmdd dt t).filename.isSome ∧
        filtered3 t ≠ []) ∧
    ((pipeline mmdd dt t).ok = false →
      (pipeline mmdd dt t).artifact = none ∧ (pipeline mmdd dt t).filename = none) := by
  constructor
  · intro hs
    rcases Option.isSome_iff_exists.mp hs with ⟨s, hsome⟩
    rcases artifact_some_inv mmdd dt t s hsome with ⟨_, _, _, h3, hp, _⟩
    rw [hp]
    exact ⟨rfl, rfl, h3⟩
  · intro hok
    by_cases h0 : missingExcelCols (trimmedHeaders t) = []
    · by_cases h1 : filtered1 t = []
      · rw [pipeline_empty1 mmdd dt t h0 h1] at hok
        exact absurd hok (by simp)
      · by_cases h2 : filtered2 t = []
        · rw [pipeline_empty2 mmdd dt t h0 h1 h2] at hok
          exact absurd hok (by simp)
        · by_cases h3 : filtered3 t = []
          · rw [pipeline_empty3 mmdd dt t h0 h2 h3] at hok
            exact absurd hok (by simp)
          · rw [pipeline_success mmdd dt t h0 h3] at hok
            exact absurd hok (by simp)
    · rw [pipeline_schema_fail mmdd dt t h0]
      exact ⟨rfl, rfl⟩

unseal Rat.mul Rat.inv Rat.add Rat.sub Rat.ofScientific in
theorem C5_result_contract_witness :
    ((pipeline "1012" "d" sampleTable).ok = true ∧
      (pipeline "1012" "d" sampleTable).filename.isSome ∧
      filtered3 sampleTable ≠ []) ∧
    ((pipeline "1012" "d" missingColTable).artifact = none ∧
      (pipeline "1012" "d" missingColTable).filename = none) :=
  ⟨(C5_result_contract "1012" "d" sampleTable).1 (by decide),
   (C5_result_contract "1012" "d" missingColTable).2 (by decide)⟩

/-- A row used only to exhibit the descending tie-break of the comparator. -/
def dummyRow : Row := ⟨"", "", .bad, .bad, .bad, .bad⟩

/-- C6: every computed row's fulfillment rate equals previous-day stock
divided by delivery quantity when the coerced delivery quantity is nonzero,
and equals 0 when it is zero; the zero case is a defined value, not a
failure. -/
theorem C6_fulfillment_rate (t : Table) (d : CompRow) (hd : d ∈ computedRows t) :
    (d.row.deliveryQty.coerce ≠ 0 →
      d.fulfillRate = d.row.prevDayStock.coerce / d.row.deliveryQty.coerce) ∧
    (d.row.deliveryQty.coerce = 0 → d.fulfillRate = 0) := by
  rw [computedRows_eq] at hd
  rcases List.mem_map.mp hd with ⟨r, _, rfl⟩
  constructor
  · intro hne
    have hne2 : r.deliveryQty.coerce ≠ 0 := hne
    show fulfillOf r = r.prevDayStock.coerce / r.deliveryQty.coerce
    rw [fulfillOf, if_pos hne2]
  · intro heq
    have heq2 : r.deliveryQty.coerce = 0 := heq
    show fulfillOf r = 0
    rw [fulfillOf, if_neg (not_not_intro heq2)]

unseal Rat.mul Rat.inv Rat.add Rat.sub Rat.ofScientific in
theorem C6_fulfillment_rate_witness :
    (compRow p3Row).row.deliveryQty.coerce = 0 ∧ (compRow p3Row).fulfillRate = 0 :=
  ⟨by decide, (C6_fulfillment_rate sampleTable (compRow p3Row) (by decide)).2 (by decide)⟩

/-- C7: every computed row's delivery-to-shortage rate is -1 when the
coerced shortage quantity is at most 0 and delivery/shortage when it is
positive; and for two rows tied on the first three keys, the one with the
larger delivery-to-shortage rate sorts first (descending), so changing only
that value swaps the relative order. -/
theorem C7_shortage_rate_tiebreak :
    (∀ (t : Table) (d : CompRow), d ∈ computedRows t →
      (d.row.actionNeeded.coerce ≤ 0 → d.ekRate = -1) ∧
      (0 < d.row.actionNeeded.coerce →
        d.ekRate = d.row.deliveryQty.coerce / d.row.actionNeeded.coerce)) ∧
    (∀ a b : CompRow, a.fulfillRate = b.fulfillRate →
      a.row.actionNeeded.coerce = b.row.actionNeeded.coerce →
      a.row.prevDayStock.coerce = b.row.prevDayStock.coerce →
      b.ekRate < a.ekRate →
      List.insertionSort rowLe [b, a] = [a, b]) := by
  constructor
  · intro t d hd
    rw [computedRows_eq] at hd
    rcases List.mem_map.mp hd with ⟨r, _, rfl⟩
    constructor
    · intro hle
      have hle2 : r.actionNeeded.coerce ≤ 0 := hle
      show ekRateOf r = -1
      rw [ekRateOf, if_neg (not_lt.mpr hle2)]
    · intro hpos
      have hpos2 : (0 : ℚ) < r.actionNeeded.coerce := hpos
      show ekRateOf r = r.deliveryQty.coerce / r.actionNeeded.coerce
      rw [ekRateOf, if_pos hpos2]
  · intro a b h1 h2 h3 h4
    have hlt : sortKey a < sortKey b := by
      unfold sortKey
      rw [h1, h2, h3]
      rw [Prod.Lex.lt_iff]
      right
      refine ⟨rfl, ?_⟩
      rw [Prod.Lex.lt_iff]
      right
      refine ⟨rfl, ?_⟩
      rw [Prod.Lex.lt_iff]
      right
      exact ⟨rfl, neg_lt_neg_iff.mpr h4⟩
    have hnot : ¬ rowLe b a := fun hle => absurd hlt (not_lt.mpr hle)
    simp [List.insertionSort, List.orderedInsert, hnot]

unseal Rat.mul Rat.inv Rat.add Rat.sub Rat.ofScientific in
theorem C7_shortage_rate_tiebreak_witness :
    ((compRow p1Row).ekRate =
      (compRow p1Row).row.deliveryQty.coerce / (compRow p1Row).row.actionNeeded.coerce) ∧
    List.insertionSort rowLe
        [⟨dummyRow, 0, 3⟩, ⟨dummyRow, 0, 5⟩] = [⟨dummyRow, 0, 5⟩, ⟨dummyRow, 0, 3⟩] :=
  ⟨((C7_shortage_rate_tiebreak.1 sampleTable (compRow p1Row) (by decide)).2 (by decide)),
   C7_shortage_rate_tiebreak.2 ⟨dummyRow, 0, 5⟩ ⟨dummyRow, 0, 3⟩ rfl rfl rfl (by decide)⟩

/-- C8: every returned artifact carries the seven fixed output column names
in order (no box/piece column), the 0.0 percent number format on exactly the
data rows of the fulfillment-rate column, and those cells hold exactly the
computed fulfillment rates of the sorted rows. -/
theorem C8_header_and_percent_roundtrip (mmdd dt : String) (t : Table) (s : Sheet)
    (h : (pipeline mmdd dt t).artifact = some s) :
    s.headerRow = ["商品コード", "商品名", "昨日残", "本日作成", "納品数", "不足数", "充足率"] ∧
    "箱/こもの" ∉ s.headerRow ∧
    s.percentFormat = "0.0%" ∧
    s.percentRows = (List.range s.dataRows.length).map (fun i => i + 3) ∧
    s.dataRows.map (fun o => o.fulfillRate) = (sortedRows t).map (fun d => d.fulfillRate) := by
  rcases artifact_some_inv mmdd dt t s h with ⟨_, _, _, _, _, hs⟩
  subst hs
  refine ⟨rfl, ?_, rfl, ?_, ?_⟩
  · show "箱/こもの" ∉ outputHeader
    decide
  · show (List.range ((outputRows t).length + 2 - 2)).map (fun i => i + 3) =
      (List.range ((outputRows t).length)).map (fun i => i + 3)
    simp
  · show (outputRows t).map (fun o => o.fulfillRate) = _
    simp [outputRows, List.map_map, Function.comp, toOutput]

unseal Rat.mul Rat.inv Rat.add Rat.sub Rat.ofScientific in
theorem C8_header_and_percent_roundtrip_witness :
    ∃ s, (pipeline "1012" "10月12日" sampleTable).artifact = some s ∧
      s.headerRow =
        ["商品コード", "商品名", "昨日残", "本日作成", "納品数", "不足数", "充足率"] ∧
      s.dataRows.map (fun o => o.fulfillRate) =
        (sortedRows sampleTable).map (fun d => d.fulfillRate) := by
  have hart : (pipeline "1012" "10月12日" sampleTable).artifact =
      some (renderSheet "10月12日" (outputRows sampleTable)) := by decide
  have hc := C8_header_and_percent_roundtrip "1012" "10月12日" sampleTable _ hart
  exact ⟨_, hart, hc.1, hc.2.2.2.2⟩

/-- C9: in every returned artifact the data occupy rows 3 .. N+2, the first
footer sits at row N+4 (one blank row below the last data row) and the
second immediately after it, both carry their fixed column-A texts, both
rows have height 18, and neither footer row is among the bordered rows. -/
theorem C9_footer_layout (mmdd dt : String) (t : Table) (s : Sheet)
    (h : (pipeline mmdd dt t).artifact = some s) :
    s.dataStartRow = 3 ∧
    s.footer1.1 = s.dataRows.length + 4 ∧
    s.footer2.1 = s.footer1.1 + 1 ∧
    s.footer1.2 = footer1Text ∧
    s.footer2.2 = footer2Text ∧
    (s.dataRows.length + 4, (18 : ℚ)) ∈ s.rowHeights ∧
    (s.dataRows.length + 5, (18 : ℚ)) ∈ s.rowHeights ∧
    s.footer1.1 ∉ s.borderedRows ∧
    s.footer2.1 ∉ s.borderedRows := by
  rcases artifact_some_inv mmdd dt t s h with ⟨_, _, _, _, _, hs⟩
  subst hs
  refine ⟨rfl, rfl, rfl, rfl, rfl, ?_, ?_, ?_, ?_⟩
  · show ((outputRows t).length + 4, (18 : ℚ)) ∈ (List.range ((outputRows t).length + 2)).map
      (fun i => ((i + 1 : ℕ), (18 : ℚ))) ++ [((outputRows t).length + 4, (18 : ℚ)),
        ((outputRows t).length + 5, (18 : ℚ))]
    exact List.mem_append_right _ (List.mem_cons_self _ _)
  · show ((outputRows t).length + 5, (18 : ℚ)) ∈ (List.range ((outputRows t).length + 2)).map
      (fun i => ((i + 1 : ℕ), (18 : ℚ))) ++ [((outputRows t).length + 4, (18 : ℚ)),
        ((outputRows t).length + 5, (18 : ℚ))]
    exact List.mem_append_right _ (List.mem_cons_of_mem _ (List.mem_cons_self _ _))
  · show (outputRows t).length + 2 + 2 ∉
      (List.range ((outputRows t).length + 2 - 1)).map (fun i => i + 2)
    intro hmem
    rcases List.mem_map.mp hmem with ⟨i, hi, hie⟩
    have := List.mem_range.mp hi
    omega
  · show (outputRows t).length + 2 + 3 ∉
      (List.range ((outputRows t).length + 2 - 1)).map (fun i => i + 2)
    intro hmem
    rcases List.mem_map.mp hmem with ⟨i, hi, hie⟩
    have := List.mem_range.mp hi
    omega

unseal Rat.mul Rat.inv Rat.add Rat.sub Rat.ofScientific in
theorem C9_footer_layout_witness :
    ∃ s, (pipeline "1012" "10月12日" sampleTable).artifact = some s ∧
      s.footer1.1 = s.dataRows.length + 4 ∧ s.footer1.1 ∉ s.borderedRows := by
  have hart : (pipeline "1012" "10月12日" sampleTable).artifact =
      some (renderSheet "10月12日" (outputRows sampleTable)) := by decide
  have hc := C9_footer_layout "1012" "10月12日" sampleTable _ hart
  exact ⟨_, hart, hc.2.1, hc.2.2.2.2.2.2.2.1⟩

/-- C10: every data row of a returned artifact comes from an input row that
passes the three filters; its four numeric columns hold the coerced values
(so a non-parseable cell shows as 0) while the product-code and
product-name values are carried through unchanged. -/
theorem C10_coerced_values_carried (mmdd dt : String) (t : Table) (s : Sheet)
    (h : (pipeline mmdd dt t).artifact = some s) :
    ∀ o ∈ s.dataRows, ∃ r ∈ t.rows, passesAll r = true ∧
      o.productCode = r.productCode ∧
      o.productName = r.productName ∧
      o.prevDayStock = r.prevDayStock.coerce ∧
      o.todayMade = r.todayReceived.coerce ∧
      o.deliveryQty = r.deliveryQty.coerce ∧
      o.shortage = r.actionNeeded.coerce ∧
      (r.prevDayStock = Cell.bad → o.prevDayStock = 0) ∧
      (r.deliveryQty = Cell.bad → o.deliveryQty = 0) ∧
      (r.actionNeeded = Cell.bad → o.shortage = 0) := by
  intro o ho
  rcases artifact_some_inv mmdd dt t s h with ⟨_, _, _, _, _, hs⟩
  subst hs
  have ho2 : o ∈ (sortedRows t).map toOutput := ho
  rcases List.mem_map.mp ho2 with ⟨d, hd, rfl⟩
  have hd2 : d ∈ computedRows t := (sortedRows_perm t).mem_iff.mp hd
  rw [computedRows_eq] at hd2
  rcases List.mem_map.mp hd2 with ⟨r, hr, rfl⟩
  have hrf := List.mem_filter.mp hr
  refine ⟨r, hrf.1, hrf.2, rfl, rfl, rfl, rfl, rfl, rfl, ?_, ?_, ?_⟩
  · intro hb
    show r.prevDayStock.coerce = 0
    rw [hb]
    rfl
  · intro hb
    show r.deliveryQty.coerce = 0
    rw [hb]
    rfl
  · intro hb
    show r.actionNeeded.coerce = 0
    rw [hb]
    rfl

unseal Rat.mul Rat.inv Rat.add Rat.sub Rat.ofScientific in
theorem C10_coerced_values_carried_witness :
    ∃ r ∈ sampleTable.rows, passesAll r = true ∧
      (toOutput (compRow p3Row)).productCode = r.productCode ∧
      (toOutput (compRow p3Row)).productName = r.productName ∧
      (toOutput (compRow p3Row)).prevDayStock = r.prevDayStock.coerce ∧
      (toOutput (compRow p3Row)).todayMade = r.todayReceived.coerce ∧
      (toOutput (compRow p3Row)).deliveryQty = r.deliveryQty.coerce ∧
      (toOutput (compRow p3Row)).shortage = r.actionNeeded.coerce ∧
      (r.prevDayStock = Cell.bad → (toOutput (compRow p3Row)).prevDayStock = 0) ∧
      (r.deliveryQty = Cell.bad → (toOutput (compRow p3Row)).deliveryQty = 0) ∧
      (r.actionNeeded = Cell.bad → (toOutput (compRow p3Row)).shortage = 0) :=
  C10_coerced_values_carried "1012" "10月12日" sampleTable
    (renderSheet "10月12日" (outputRows sampleTable)) (by decide)
    (toOutput (compRow p3Row)) (by decide)

end Kowake
